import Mathlib

/-!
Shallow embedding of `scripts/traffic-api-docs-generator.py` (class
`TrafficAPIDocsGenerator`) from the intelligent-traffic-system repository.

The parsed OpenAPI document is modelled by `Doc`: every dictionary key the
script reads is an `Option` field (`none` models an absent key).  Python
code that can raise a `KeyError` is modelled with `Option`/`Except` results.
-/

/-- A parameter entry of an operation's `parameters` list.  `name` and
`paramIn` model the `'name'` and `'in'` keys (read with `param['name']` /
`param['in']`, which raise when absent); `schemaType` models
`param.get('schema', {}).get('type', 'string')` before the default is
applied; `required` and `description` are read with `.get` defaults. -/
structure Param where
  name : Option String
  paramIn : Option String
  schemaType : Option String
  required : Option Bool
  description : Option String
deriving DecidableEq

/-- An operation descriptor (the value under one HTTP method of a path). -/
structure Operation where
  summary : Option String
  description : Option String
  parameters : Option (List Param)
  requestBody : Bool
  responses : Option (List (String × Option String))
deriving DecidableEq

/-- The `info` section: `title` and `version` keys. -/
structure Info where
  title : Option String
  version : Option String
deriving DecidableEq

/-- A property of a schema in `components.schemas`. -/
structure PropSchema where
  type : Option String
  format : Option String
  description : Option String
  enum : Option (List String)
deriving DecidableEq

/-- A schema descriptor in `components.schemas`. -/
structure Schema where
  type : Option String
  properties : Option (List (String × PropSchema))
deriving DecidableEq

/-- The `components` section: schema map and security-scheme map (the
security schemes are modelled as name/type pairs; the script never reads
them). -/
structure Components where
  schemas : Option (List (String × Schema))
  securitySchemes : Option (List (String × String))
deriving DecidableEq

/-- A parsed OpenAPI document, as the script sees it after `yaml.safe_load`
/ `json.load`: the four top-level keys the script ever reads. -/
structure Doc where
  openapi : Option String
  info : Option Info
  paths : Option (List (String × List (String × Operation)))
  components : Option Components
deriving DecidableEq

/-- Python's `str.upper()` for the ASCII method names the script compares. -/
def pyUpper (s : String) : String := ⟨s.data.map Char.toUpper⟩

/-- `sub` occurs as a substring of `s` (Python's `sub in s`). -/
def StrContains (s sub : String) : Prop := sub.data <:+: s.data

instance (s sub : String) : Decidable (StrContains s sub) :=
  List.decidableInfix sub.data s.data

/-- Boolean form of `StrContains`, used inside the embedded code. -/
def strContainsB (s sub : String) : Bool := decide (StrContains s sub)

/-- Concatenation of the strings produced for each list element
(the Python `for ...: content += ...` accumulation pattern). -/
def concatMap (f : α → String) : List α → String
  | [] => ""
  | a :: rest => f a ++ concatMap f rest

/-- Append two fragments either of which may have failed with a
`KeyError` (`none`); the result fails if either piece failed. -/
def optAppend : Option String → Option String → Option String
  | some s, some r => some (s ++ r)
  | _, _ => none

/-- Concatenation of fragments any of which may have failed with a
`KeyError` (`none`); the whole rendering fails if any piece fails. -/
def optConcat : List (Option String) → Option String
  | [] => some ""
  | o :: rest => optAppend o (optConcat rest)

/-- The `expected_endpoints` list of `validate_traffic_endpoints`. -/
def expected_endpoints : List String :=
  ["/traffic/flow", "/traffic-lights/\x7bintersection_id\x7d",
   "/congestion/alerts", "/routes/optimize"]

/-- One operation's contribution to the `\x7bintersection_id\x7d` check of
`validate_traffic_endpoints`: a warning when a `parameters` list is
declared but contains no entry with name `intersection_id` and
`in == "path"`; no warning when no `parameters` key exists. -/
def op_param_warning (path : String) (op : Operation) : Option String :=
  match op.parameters with
  | none => none
  | some ps =>
    if ps.any (fun q => q.name == some "intersection_id" && q.paramIn == some "path") then
      none
    else
      some ("Path " ++ path ++ " should have intersection_id path parameter")

/-- The first loop of `validate_traffic_endpoints`: for each path whose
string contains `\x7bintersection_id\x7d`, check every operation's
parameters. -/
def path_param_warnings : List (String × List (String × Operation)) → List String
  | [] => []
  | (path, methods) :: rest =>
    (if strContainsB path "\x7bintersection_id\x7d" then
      methods.filterMap (fun mo => op_param_warning path mo.2)
    else []) ++ path_param_warnings rest

/-- `validate_traffic_endpoints`: path-parameter warnings followed by one
warning per expected endpoint that is not a key of `paths`.  It only ever
produces warnings, never errors. -/
def validate_traffic_endpoints (doc : Doc) : List String :=
  path_param_warnings (doc.paths.getD []) ++
    expected_endpoints.filterMap (fun e =>
      if e ∈ (doc.paths.getD []).map Prod.fst then none
      else some ("Expected endpoint not found: " ++ e))

/-- The validation result: accumulated `self.errors`, `self.warnings`, and
the boolean returned by `validate_openapi_spec`. -/
structure VResult where
  errors : List String
  warnings : List String
  ok : Bool
deriving DecidableEq

/-- `validate_openapi_spec`: checks `openapi`, `info`, `paths`, then
`info.title`, `info.version`, returning `False` at the FIRST missing field
(the Python loops `return False` inside the loop body); only when all five
are present does it run `validate_traffic_endpoints` and return
`len(self.errors) == 0`. -/
def validate_openapi_spec (doc : Doc) : VResult :=
  match doc.openapi, doc.info, doc.paths with
  | none, _, _ => ⟨["Missing required field: openapi"], [], false⟩
  | some _, none, _ => ⟨["Missing required field: info"], [], false⟩
  | some _, some _, none => ⟨["Missing required field: paths"], [], false⟩
  | some _, some i, some _ =>
    match i.title, i.version with
    | none, _ => ⟨["Missing required info field: title"], [], false⟩
    | some _, none => ⟨["Missing required info field: version"], [], false⟩
    | some _, some _ => ⟨[], validate_traffic_endpoints doc, true⟩

/-- The five HTTP methods `_generate_endpoints_section` renders. -/
def http_methods : List String := ["GET", "POST", "PUT", "DELETE", "PATCH"]

/-- One row of the parameters table.  Reading `param['name']` or
`param['in']` raises a `KeyError` when the key is absent: `none`. -/
def render_param (q : Param) : Option String :=
  match q.name, q.paramIn with
  | some n, some loc =>
    some ("| " ++ n ++ " | " ++ loc ++ " | " ++ q.schemaType.getD "string" ++ " | " ++
      (if q.required.getD false then "True" else "False") ++ " | " ++
      q.description.getD "" ++ " |\n")
  | _, _ => none

/-- The `**Parameters**` table emitted when an operation declares a
`parameters` key. -/
def params_table (ps : List Param) : Option String :=
  (optConcat (ps.map render_param)).map (fun rows =>
    "**Parameters**:\n\n| Name | In | Type | Required | Description |\n|------|----|------|----------|-------------|\n"
      ++ rows ++ "\n")

/-- The fixed `**Request Body**` example block. -/
def request_body_block : String :=
  "**Request Body**:\n\n```json\n\x7b\n  \"example\": \"request body\"\n\x7d\n```\n\n"

/-- The `**Responses**` bullet list. -/
def responses_block (rs : List (String × Option String)) : String :=
  "**Responses**:\n\n" ++
    concatMap (fun sd => "- **" ++ sd.1 ++ "**: " ++ sd.2.getD "" ++ "\n") rs ++ "\n"

/-- The body emitted for one `(method, details)` pair of a path: nothing at
all when `method.upper()` is not one of the five HTTP methods, otherwise
the heading plus the optional summary/description/parameters/request-body/
responses blocks and the trailing rule. -/
def render_operation (path method : String) (op : Operation) : Option String :=
  if pyUpper method ∈ http_methods then
    match (match op.parameters with
           | none => some ""
           | some ps => params_table ps) with
    | none => none
    | some paramsStr =>
      some ("#### " ++ pyUpper method ++ " " ++ path ++ "\n\n" ++
        (match op.summary with
         | some s => "**Summary**: " ++ s ++ "\n\n"
         | none => "") ++
        (match op.description with
         | some d => d ++ "\n\n"
         | none => "") ++
        paramsStr ++
        (if op.requestBody then request_body_block else "") ++
        (match op.responses with
         | some rs => responses_block rs
         | none => "") ++
        "---\n\n")
  else some ""

/-- The fragment for one path: its heading followed by the bodies of each
of its methods, in order. -/
def render_path_item (path : String) (methods : List (String × Operation)) : Option String :=
  (optConcat (methods.map (fun mo => render_operation path mo.1 mo.2))).map
    (fun body => "### " ++ path ++ "\n\n" ++ body)

/-- `_generate_endpoints_section`: the placeholder when `paths` is absent,
otherwise the heading plus each path's fragment; `none` models an escaped
`KeyError`. -/
def _generate_endpoints_section (doc : Doc) : Option String :=
  match doc.paths with
  | none => some "## Traffic Endpoints\n\nNo endpoints defined in OpenAPI specification.\n"
  | some ps =>
    (optConcat (ps.map (fun pm => render_path_item pm.1 pm.2))).map
      (fun body => "## Traffic Endpoints\n\n" ++ body)

/-- Comma-separated single-quoted items, as in Python's `repr` of a list. -/
def pyCommaSep : List String → String
  | [] => ""
  | [s] => "\x27" ++ s ++ "\x27"
  | s :: rest => "\x27" ++ s ++ "\x27" ++ ", " ++ pyCommaSep rest

/-- Python's `repr` of a list of strings, as printed by the f-string for
`enum` values. -/
def pyListRepr (l : List String) : String := "[" ++ pyCommaSep l ++ "]"

/-- One property's lines inside a model's YAML block. -/
def render_prop (pn : String) (pr : PropSchema) : String :=
  "    " ++ pn ++ ":\n" ++
  (match pr.type with | some t => "      type: " ++ t ++ "\n" | none => "") ++
  (match pr.format with | some f => "      format: " ++ f ++ "\n" | none => "") ++
  (match pr.description with | some d => "      description: " ++ d ++ "\n" | none => "") ++
  (match pr.enum with | some l => "      enum: " ++ pyListRepr l ++ "\n" | none => "")

/-- One model's block of `_generate_models_section`. -/
def render_model (name : String) (sch : Schema) : String :=
  "### " ++ name ++ " Object\n\n```yaml\n" ++ name ++ ":\n" ++
  (match sch.type with | some t => "  type: " ++ t ++ "\n" | none => "") ++
  (match sch.properties with
   | some props => "  properties:\n" ++ concatMap (fun pp => render_prop pp.1 pp.2) props
   | none => "") ++
  "```\n\n"

/-- `_generate_models_section`: placeholder when `components.schemas` is
absent, otherwise each schema's block; never fails. -/
def _generate_models_section (doc : Doc) : String :=
  match doc.components with
  | none => "## Data Models\n\nNo data models defined in OpenAPI specification.\n"
  | some c =>
    match c.schemas with
    | none => "## Data Models\n\nNo data models defined in OpenAPI specification.\n"
    | some schs => "## Data Models\n\n" ++ concatMap (fun ms => render_model ms.1 ms.2) schs

/-- `generate_markdown_docs`: it reads the FIXED path
`docs/api/templates/traffic-api-template.md` (there is no user-supplied
template option and no built-in default); `templateExists`/`template`
model that file.  When the file is missing it records
"Template file not found" and returns `False`; an escaped `KeyError` from
the endpoints renderer is caught by the `except` clause; otherwise the
template with the timestamp and the two generated sections substituted is
written out. -/
def generate_markdown_docs (templateExists : Bool) (template timestamp : String)
    (doc : Doc) : Except String String :=
  if templateExists = false then
    .error "Template file not found"
  else
    match _generate_endpoints_section doc with
    | none => .error "Failed to generate Markdown docs: KeyError"
    | some endpoints =>
      .ok (((template.replace "\x7b\x7btimestamp\x7d\x7d" timestamp).replace
              "## Traffic Endpoints" endpoints).replace
            "## Data Models" (_generate_models_section doc))

/-- `generate_validation_report`: the Markdown report string built from the
accumulated errors and warnings, the generation timestamp, and the source
file path.  It takes nothing else: the document itself is not an input. -/
def generate_validation_report (timestamp openapi_path : String)
    (errors warnings : List String) : String :=
  "# Traffic API Documentation Validation Report\n\n" ++
  ("Generated: " ++ timestamp ++ "\n\n") ++
  "## Summary\n\n" ++
  ("- Errors: " ++ toString errors.length ++ "\n") ++
  ("- Warnings: " ++ toString warnings.length ++ "\n") ++
  ("- OpenAPI File: " ++ openapi_path ++ "\n\n") ++
  (if errors.isEmpty then "" else
    "## Errors\n\n" ++ concatMap (fun e => "- ❌ " ++ e ++ "\n") errors ++ "\n") ++
  (if warnings.isEmpty then "" else
    "## Warnings\n\n" ++ concatMap (fun w => "- ⚠️ " ++ w ++ "\n") warnings ++ "\n") ++
  (if errors.isEmpty && warnings.isEmpty then
    "✅ All validations passed successfully!\n\n" else "")

/-- The `--validate-only` path of `main` on an already-parsed document:
when `load_openapi_spec` (whose value is `validate_openapi_spec`'s) is
`False`, `main` prints the failure banner and each error and exits 1
before reaching the `--validate-only` branch; otherwise that branch
prints "Validation completed." and exits 0 when there are no errors, 1
otherwise.  No documentation is generated on this path.  Returns
`(exit code, printed messages)`. -/
def run_validate_only (doc : Doc) : Nat × List String :=
  if (validate_openapi_spec doc).ok = false then
    (1, "❌ Failed to load OpenAPI specification" ::
        (validate_openapi_spec doc).errors.map (fun e => "  - " ++ e))
  else
    (if (validate_openapi_spec doc).errors.isEmpty then 0 else 1,
     ["Validation completed."])

/-- A minimal GET operation (summary and one 200 response). -/
def sample_op : Operation :=
  ⟨some "Get data", none, none, false, some [("200", some "OK")]⟩

/-- A document with exactly one path carrying one GET operation. -/
def doc_one_get : Doc :=
  ⟨some "3.0.0", some ⟨some "Test Traffic API", some "1.0.0"⟩,
   some [("/traffic/flow", [("get", sample_op)])], none⟩

/-- The endpoints fragment rendered from `doc_one_get`. -/
def one_get_fragment : String := (_generate_endpoints_section doc_one_get).getD ""

/-- A document whose `info` lacks BOTH `title` and `version`. -/
def doc_title_version_missing : Doc :=
  ⟨some "3.0.0", some ⟨none, none⟩, some [], none⟩

/-- Components carrying all three required data models and an apiKey
security scheme. -/
def full_components : Components :=
  ⟨some [("TrafficFlow", ⟨some "object", none⟩),
         ("TrafficIncident", ⟨some "object", none⟩),
         ("TrafficSignal", ⟨some "object", none⟩)],
   some [("ApiKeyAuth", "apiKey")]⟩

/-- A document that satisfies every rule the script checks AND carries all
three required data models plus an apiKey scheme. -/
def doc_all_models : Doc :=
  ⟨some "3.0.0", some ⟨some "Test Traffic API", some "1.0.0"⟩,
   some [("/traffic/flow", []), ("/traffic-lights/\x7bintersection_id\x7d", []),
         ("/congestion/alerts", []), ("/routes/optimize", [])],
   some full_components⟩

/-- `doc_all_models` with the `TrafficFlow` model removed from
`components.schemas`. -/
def doc_missing_flow_model : Doc :=
  { doc_all_models with
    components := some ⟨some [("TrafficIncident", ⟨some "object", none⟩),
                              ("TrafficSignal", ⟨some "object", none⟩)],
                        some [("ApiKeyAuth", "apiKey")]⟩ }

/-- `doc_all_models` with `components.securitySchemes` absent. -/
def doc_no_security : Doc :=
  { doc_all_models with components := some ⟨full_components.schemas, none⟩ }

/-- A document whose single path matches no traffic-domain name. -/
def doc_no_traffic_paths : Doc :=
  ⟨some "3.0.0", some ⟨some "T", some "1"⟩, some [("/foo", [])], none⟩

/-- A document with exactly three endpoints and no digit anywhere in its
paths. -/
def doc_three_paths : Doc :=
  ⟨some "3.0.0", some ⟨some "T", some "V"⟩,
   some [("/traffic/flow", []), ("/congestion/alerts", []), ("/routes/optimize", [])],
   none⟩

/-- A parameter entry with no `name` key. -/
def param_no_name : Param := ⟨none, some "path", none, none, none⟩

/-- An operation whose parameters list holds `param_no_name`. -/
def op_bad_param : Operation := ⟨none, none, some [param_no_name], false, none⟩

/-- A document whose only operation uses the non-rendered method
`options` and carries the key-less parameter entry. -/
def doc_options_bad_param : Doc :=
  ⟨some "3.0.0", some ⟨some "T", some "V"⟩,
   some [("/p", [("options", op_bad_param)])], none⟩

/-- A document whose only operation is a GET carrying the key-less
parameter entry: rendering it raises a `KeyError`. -/
def doc_get_bad_param : Doc :=
  ⟨some "3.0.0", some ⟨some "T", some "V"⟩,
   some [("/q", [("get", op_bad_param)])], none⟩

theorem strContains_refl (s : String) : StrContains s s := ⟨[], [], by simp⟩

theorem StrContains.appendL {a sub : String} (b : String) (h : StrContains a sub) :
    StrContains (a ++ b) sub := by
  unfold StrContains at h ⊢
  rw [String.data_append]
  exact h.trans ⟨[], b.data, by simp⟩

theorem StrContains.appendR {b sub : String} (a : String) (h : StrContains b sub) :
    StrContains (a ++ b) sub := by
  unfold StrContains at h ⊢
  rw [String.data_append]
  exact h.trans ⟨a.data, [], by simp⟩

theorem strContains_concatMap {α : Type _} (f : α → String) {l : List α} {a : α}
    (h : a ∈ l) {sub : String} (hs : StrContains (f a) sub) :
    StrContains (concatMap f l) sub := by
  induction l with
  | nil => cases h
  | cons b rest ih =>
    simp only [concatMap]
    rcases List.mem_cons.mp h with rfl | hmem
    · exact hs.appendL _
    · exact (ih hmem).appendR _

theorem optAppend_eq_none_iff (o o' : Option String) :
    optAppend o o' = none ↔ o = none ∨ o' = none := by
  cases o <;> cases o' <;> simp [optAppend]

theorem optConcat_eq_none_iff (l : List (Option String)) :
    optConcat l = none ↔ none ∈ l := by
  induction l with
  | nil => simp [optConcat]
  | cons o rest ih =>
    simp [optConcat, optAppend_eq_none_iff, ih, eq_comm]

/-- `validate_openapi_spec` leaves one of six error lists, each fully
determined by which required field (if any) was the first one missing. -/
theorem validate_errors_cases (doc : Doc) :
    (validate_openapi_spec doc).errors = [] ∨
    (validate_openapi_spec doc).errors = ["Missing required field: openapi"] ∨
    (validate_openapi_spec doc).errors = ["Missing required field: info"] ∨
    (validate_openapi_spec doc).errors = ["Missing required field: paths"] ∨
    (validate_openapi_spec doc).errors = ["Missing required info field: title"] ∨
    (validate_openapi_spec doc).errors = ["Missing required info field: version"] := by
  obtain ⟨o, i, p, c⟩ := doc
  cases o
  · exact Or.inr (Or.inl rfl)
  · cases i with
    | none => exact Or.inr (Or.inr (Or.inl rfl))
    | some info =>
      obtain ⟨t, v⟩ := info
      cases p
      · exact Or.inr (Or.inr (Or.inr (Or.inl rfl)))
      · cases t
        · exact Or.inr (Or.inr (Or.inr (Or.inr (Or.inl rfl))))
        · cases v
          · exact Or.inr (Or.inr (Or.inr (Or.inr (Or.inr rfl))))
          · exact Or.inl rfl

/-- The boolean `validate_openapi_spec` returns is `len(errors) == 0`. -/
theorem validate_ok_eq_errors_isEmpty (doc : Doc) :
    (validate_openapi_spec doc).ok = (validate_openapi_spec doc).errors.isEmpty := by
  obtain ⟨o, i, p, c⟩ := doc
  cases o
  · rfl
  · cases i with
    | none => rfl
    | some info =>
      obtain ⟨t, v⟩ := info
      cases p
      · rfl
      · cases t
        · rfl
        · cases v
          · rfl
          · rfl

/-- C1, counterexample: a document missing BOTH `info.title` and
`info.version` yields exactly one error, about `title`, and no error
mentioning `version` at all — the validator stops at the first missing
info field, refuting "exactly one error mentioning version regardless of
which other fields are also missing". -/
theorem c1_counterexample :
    doc_title_version_missing.info = some ⟨none, none⟩ ∧
    (validate_openapi_spec doc_title_version_missing).errors
      = ["Missing required info field: title"] ∧
    (validate_openapi_spec doc_title_version_missing).errors.countP
      (fun e => strContainsB e "version") = 0 :=
  ⟨rfl, rfl, by decide⟩

/-- C1, amended: `validate_openapi_spec` returns at the first missing
field, so the guarantee holds exactly when every field checked before
`info.version` is present: for every document with `openapi`, `info` and
`paths` present and `info.title` present but `info.version` absent, the
result contains exactly one error, and it mentions `version`. -/
theorem c1_amended (o ti : String) (ps : List (String × List (String × Operation)))
    (c : Option Components) :
    (validate_openapi_spec ⟨some o, some ⟨some ti, none⟩, some ps, c⟩).errors
      = ["Missing required info field: version"] ∧
    (validate_openapi_spec ⟨some o, some ⟨some ti, none⟩, some ps, c⟩).errors.countP
      (fun e => strContainsB e "version") = 1 := by
  refine ⟨rfl, ?_⟩
  show List.countP (fun e => strContainsB e "version")
    ["Missing required info field: version"] = 1
  decide

/-- C2, counterexample: removing the required model `TrafficFlow` from an
otherwise fully valid document does not add any error: both documents
validate with zero errors, so the error count rises by zero, not one, and
no message names the model. -/
theorem c2_counterexample :
    ((doc_all_models.components.getD ⟨none, none⟩).schemas.getD []).map Prod.fst
      = ["TrafficFlow", "TrafficIncident", "TrafficSignal"] ∧
    ((doc_missing_flow_model.components.getD ⟨none, none⟩).schemas.getD []).map Prod.fst
      = ["TrafficIncident", "TrafficSignal"] ∧
    (validate_openapi_spec doc_all_models).errors = [] ∧
    (validate_openapi_spec doc_missing_flow_model).errors = [] :=
  ⟨rfl, rfl, rfl, rfl⟩

/-- C2, amended: `validate_openapi_spec` never inspects `components`, so
there is no required-model rule: the validation result is identical for
any two values of the `components` field, and removing a data model from
`components.schemas` changes the error list not at all. -/
theorem c2_amended (o : Option String) (i : Option Info)
    (p : Option (List (String × List (String × Operation)))) (c c' : Option Components) :
    validate_openapi_spec ⟨o, i, p, c⟩ = validate_openapi_spec ⟨o, i, p, c'⟩ := by
  cases o <;> rcases i with _ | ⟨t, v⟩ <;> cases p <;> rfl

/-- C3, counterexample: a document with no `securitySchemes` key at all
validates with zero errors and `ok = true`; no error about a missing
apiKey scheme (or anything else) is produced, refuting the claim. -/
theorem c3_counterexample :
    (doc_no_security.components.getD ⟨none, none⟩).securitySchemes = none ∧
    (validate_openapi_spec doc_no_security).errors = [] ∧
    (validate_openapi_spec doc_no_security).ok = true :=
  ⟨rfl, rfl, rfl⟩

/-- C3, amended: the script has no security-scheme rule at all: for every
document, no error of the validation result so much as mentions `apiKey`;
an empty, absent or apiKey-free `securitySchemes` goes unreported. -/
theorem c3_amended (doc : Doc) :
    (validate_openapi_spec doc).errors.all
      (fun e => !(strContainsB e "apiKey")) = true := by
  rcases validate_errors_cases doc with h | h | h | h | h | h <;> rw [h] <;> decide

/-- C4, counterexample: a document none of whose paths matches any
traffic-domain name validates with zero errors and `ok = true`; the four
"Expected endpoint not found" entries land among the warnings, refuting
the claim that a blocking error records the absence. -/
theorem c4_counterexample :
    (validate_openapi_spec doc_no_traffic_paths).errors = [] ∧
    (validate_openapi_spec doc_no_traffic_paths).ok = true ∧
    (validate_openapi_spec doc_no_traffic_paths).warnings =
      ["Expected endpoint not found: /traffic/flow",
       "Expected endpoint not found: /traffic-lights/\x7bintersection_id\x7d",
       "Expected endpoint not found: /congestion/alerts",
       "Expected endpoint not found: /routes/optimize"] :=
  ⟨rfl, rfl, by decide⟩

/-- C4, amended: on a document with the five required fields present and
none of the expected endpoints among its paths, the validator reports
zero errors and `ok = true`, and instead emits the non-blocking warning
"Expected endpoint not found: e" for every expected endpoint `e` (the
policy is the fixed `expected_endpoints` list; there is no keyword
matching and no error). -/
theorem c4_amended (o ti v : String) (ps : List (String × List (String × Operation)))
    (c : Option Components)
    (h : ∀ e ∈ expected_endpoints, e ∉ ps.map Prod.fst) :
    (validate_openapi_spec ⟨some o, some ⟨some ti, some v⟩, some ps, c⟩).errors = [] ∧
    (validate_openapi_spec ⟨some o, some ⟨some ti, some v⟩, some ps, c⟩).ok = true ∧
    ∀ e ∈ expected_endpoints,
      ("Expected endpoint not found: " ++ e) ∈
        (validate_openapi_spec ⟨some o, some ⟨some ti, some v⟩, some ps, c⟩).warnings := by
  refine ⟨rfl, rfl, ?_⟩
  intro e he
  show _ ∈ validate_traffic_endpoints _
  refine List.mem_append.mpr (Or.inr ?_)
  refine List.mem_filterMap.mpr ⟨e, he, ?_⟩
  show (if e ∈ ps.map Prod.fst then none
        else some ("Expected endpoint not found: " ++ e))
      = some ("Expected endpoint not found: " ++ e)
  rw [if_neg (h e he)]

/-- C4, witness: the amended statement instantiated at
`doc_no_traffic_paths`. -/
theorem c4_witness :
    (∀ e ∈ expected_endpoints,
        e ∉ ([("/foo", ([] : List (String × Operation)))]).map Prod.fst) ∧
    ((validate_openapi_spec doc_no_traffic_paths).errors = [] ∧
     (validate_openapi_spec doc_no_traffic_paths).ok = true ∧
     ∀ e ∈ expected_endpoints,
       ("Expected endpoint not found: " ++ e) ∈
         (validate_openapi_spec doc_no_traffic_paths).warnings) :=
  ⟨by decide, c4_amended "3.0.0" "T" "1" [("/foo", [])] none (by decide)⟩

/-- C5, counterexample: the script reads only the fixed template path
`docs/api/templates/traffic-api-template.md`; on a run with no
user-supplied template (the CLI offers no such option) and that file
absent, it fails with "Template file not found" instead of falling back
to a built-in default and producing Markdown. -/
theorem c5_counterexample :
    generate_markdown_docs false "" "" doc_all_models
      = Except.error "Template file not found" := rfl

/-- C5, amended: `generate_markdown_docs` fails with the template error
exactly when the fixed template file is missing — there is no
user-supplied template option and no built-in fallback; when the file is
present (and the endpoints renderer raises no `KeyError`) it produces
Markdown. -/
theorem c5_amended (template timestamp : String) (doc : Doc) (s : String)
    (h : _generate_endpoints_section doc = some s) :
    generate_markdown_docs false template timestamp doc
      = Except.error "Template file not found" ∧
    (generate_markdown_docs true template timestamp doc).isOk = true := by
  refine ⟨rfl, ?_⟩
  simp [generate_markdown_docs, h, Except.isOk, Except.toBool]

/-- A successfully rendered operation fragment contains the uppercased
method name and the path string. -/
theorem render_operation_some_contains (path m : String) (op : Operation) (t : String)
    (hm : pyUpper m ∈ http_methods) (hr : render_operation path m op = some t) :
    StrContains t (pyUpper m) ∧ StrContains t path := by
  unfold render_operation at hr
  rw [if_pos hm] at hr
  cases hpar : (match op.parameters with
               | none => some ""
               | some ps => params_table ps) with
  | none => rw [hpar] at hr; exact absurd hr (by simp)
  | some P =>
    rw [hpar] at hr
    have ht := (Option.some.inj hr).symm
    subst ht
    constructor
    · apply StrContains.appendL
      apply StrContains.appendL
      apply StrContains.appendL
      apply StrContains.appendL
      apply StrContains.appendL
      apply StrContains.appendL
      apply StrContains.appendL
      apply StrContains.appendL
      apply StrContains.appendL
      apply StrContains.appendR
      exact strContains_refl _
    · apply StrContains.appendL
      apply StrContains.appendL
      apply StrContains.appendL
      apply StrContains.appendL
      apply StrContains.appendL
      apply StrContains.appendL
      apply StrContains.appendL
      apply StrContains.appendR
      exact strContains_refl _

/-- C6: the endpoints renderer emits an operation body only for methods
whose uppercase form is one of GET/POST/PUT/DELETE/PATCH — any other
method contributes the empty string, i.e. is skipped silently — and
rendering a document holding exactly one path with one GET operation
yields a fragment containing the path string and the uppercase method
name. -/
theorem c6_endpoints_renderer :
    (∀ (path m : String) (op : Operation),
       pyUpper m ∉ http_methods → render_operation path m op = some "") ∧
    (∀ (doc : Doc) (p m : String) (op : Operation) (s : String),
       doc.paths = some [(p, [(m, op)])] → pyUpper m = "GET" →
       _generate_endpoints_section doc = some s →
       StrContains s p ∧ StrContains s "GET") := by
  constructor
  · intro path m op hm
    unfold render_operation
    rw [if_neg hm]
  · intro doc p m op s hp hm hs
    have hs' : (match doc.paths with
                | none => some "## Traffic Endpoints\n\nNo endpoints defined in OpenAPI specification.\n"
                | some ps =>
                  (optConcat (ps.map (fun pm => render_path_item pm.1 pm.2))).map
                    (fun body => "## Traffic Endpoints\n\n" ++ body)) = some s := hs
    rw [hp] at hs'
    have hs'' : (optAppend (render_path_item p [(m, op)]) (some "")).map
        (fun body => "## Traffic Endpoints\n\n" ++ body) = some s := hs'
    have h3 : render_path_item p [(m, op)]
        = (optAppend (render_operation p m op) (some "")).map
            (fun body => "### " ++ p ++ "\n\n" ++ body) := rfl
    rw [h3] at hs''
    cases hr : render_operation p m op with
    | none => rw [hr] at hs''; exact absurd hs'' (by simp [optAppend])
    | some t =>
      rw [hr] at hs''
      simp only [optAppend, Option.map_some'] at hs''
      have hmem : pyUpper m ∈ http_methods := by rw [hm]; decide
      obtain ⟨hU, hP⟩ := render_operation_some_contains p m op t hmem hr
      rw [← hm]
      obtain rfl := Option.some.inj hs''
      constructor
      · apply StrContains.appendR
        apply StrContains.appendL
        apply StrContains.appendL
        apply StrContains.appendL
        apply StrContains.appendR
        exact strContains_refl _
      · apply StrContains.appendR
        apply StrContains.appendL
        exact (hU.appendL "").appendR _

set_option maxRecDepth 8192 in
/-- C6, witness: the two parts instantiated at an `options` operation and
at the one-GET document `doc_one_get`. -/
theorem c6_witness :
    (pyUpper "options" ∉ http_methods ∧
     render_operation "/p" "options" op_bad_param = some "") ∧
    (doc_one_get.paths = some [("/traffic/flow", [("get", sample_op)])] ∧
     pyUpper "get" = "GET" ∧
     _generate_endpoints_section doc_one_get = some one_get_fragment ∧
     StrContains one_get_fragment "/traffic/flow" ∧
     StrContains one_get_fragment "GET") := by
  refine ⟨⟨by decide, c6_endpoints_renderer.1 "/p" "options" op_bad_param (by decide)⟩,
          rfl, rfl, by decide, ?_, ?_⟩
  · exact (c6_endpoints_renderer.2 doc_one_get "/traffic/flow" "get" sample_op
      one_get_fragment rfl rfl (by decide)).1
  · exact (c6_endpoints_renderer.2 doc_one_get "/traffic/flow" "get" sample_op
      one_get_fragment rfl rfl (by decide)).2

set_option maxRecDepth 8192 in
/-- C5, witness: the amended statement instantiated at `doc_one_get`. -/
theorem c5_witness :
    (_generate_endpoints_section doc_one_get = some one_get_fragment) ∧
    (generate_markdown_docs false "tpl" "ts" doc_one_get
        = Except.error "Template file not found" ∧
     (generate_markdown_docs true "tpl" "ts" doc_one_get).isOk = true) :=
  ⟨by decide, c5_amended "tpl" "ts" doc_one_get one_get_fragment (by decide)⟩

set_option maxRecDepth 65536 in
/-- C7, counterexample: `generate_validation_report` does not take the
document at all, so the report from a run on a three-endpoint document
contains neither the endpoint count (the digit 3 appears nowhere in it)
nor any schema/security-scheme count or pass/fail field. -/
theorem c7_counterexample :
    (doc_three_paths.paths.getD []).length = 3 ∧
    ¬ StrContains (generate_validation_report "T" "api.yaml"
        (validate_openapi_spec doc_three_paths).errors
        (validate_openapi_spec doc_three_paths).warnings) "3" := by
  refine ⟨rfl, ?_⟩
  decide

/-- C7, amended: the report contains the timestamp, the source file path,
every error, every warning, and the counts of errors and warnings; it
contains no endpoint, schema or security-scheme count and no pass/fail
boolean field, since the builder's only inputs are the error and warning
lists, the timestamp, and the path. -/
theorem c7_amended (timestamp openapi_path : String) (errors warnings : List String) :
    StrContains (generate_validation_report timestamp openapi_path errors warnings)
      timestamp ∧
    StrContains (generate_validation_report timestamp openapi_path errors warnings)
      openapi_path ∧
    StrContains (generate_validation_report timestamp openapi_path errors warnings)
      ("- Errors: " ++ toString errors.length) ∧
    StrContains (generate_validation_report timestamp openapi_path errors warnings)
      ("- Warnings: " ++ toString warnings.length) ∧
    (∀ e ∈ errors,
      StrContains (generate_validation_report timestamp openapi_path errors warnings) e) ∧
    (∀ w ∈ warnings,
      StrContains (generate_validation_report timestamp openapi_path errors warnings) w) := by
  refine ⟨?_, ?_, ?_, ?_, ?_, ?_⟩
  · unfold generate_validation_report
    apply StrContains.appendL
    apply StrContains.appendL
    apply StrContains.appendL
    apply StrContains.appendL
    apply StrContains.appendL
    apply StrContains.appendL
    apply StrContains.appendL
    apply StrContains.appendR
    apply StrContains.appendL
    apply StrContains.appendR
    exact strContains_refl _
  · unfold generate_validation_report
    apply StrContains.appendL
    apply StrContains.appendL
    apply StrContains.appendL
    apply StrContains.appendR
    apply StrContains.appendL
    apply StrContains.appendR
    exact strContains_refl _
  · unfold generate_validation_report
    apply StrContains.appendL
    apply StrContains.appendL
    apply StrContains.appendL
    apply StrContains.appendL
    apply StrContains.appendL
    apply StrContains.appendR
    apply StrContains.appendL
    exact strContains_refl _
  · unfold generate_validation_report
    apply StrContains.appendL
    apply StrContains.appendL
    apply StrContains.appendL
    apply StrContains.appendL
    apply StrContains.appendR
    apply StrContains.appendL
    exact strContains_refl _
  · intro e he
    unfold generate_validation_report
    apply StrContains.appendL
    apply StrContains.appendL
    apply StrContains.appendR
    rw [if_neg (by simp [List.isEmpty_iff]; exact List.ne_nil_of_mem he)]
    apply StrContains.appendL
    apply StrContains.appendR
    exact strContains_concatMap _ he (((strContains_refl e).appendR "- ❌ ").appendL "\n")
  · intro w hw
    unfold generate_validation_report
    apply StrContains.appendL
    apply StrContains.appendR
    rw [if_neg (by simp [List.isEmpty_iff]; exact List.ne_nil_of_mem hw)]
    apply StrContains.appendL
    apply StrContains.appendR
    exact strContains_concatMap _ hw (((strContains_refl w).appendR "- ⚠️ ").appendL "\n")

/-- C7, witness: the amended statement instantiated at a run with one
error and one warning. -/
theorem c7_witness :
    ("E" ∈ ["E"] ∧
     StrContains (generate_validation_report "T" "api.yaml" ["E"] ["W"]) "E") ∧
    ("W" ∈ ["W"] ∧
     StrContains (generate_validation_report "T" "api.yaml" ["E"] ["W"]) "W") :=
  ⟨⟨by decide, (c7_amended "T" "api.yaml" ["E"] ["W"]).2.2.2.2.1 "E" (by decide)⟩,
   ⟨by decide, (c7_amended "T" "api.yaml" ["E"] ["W"]).2.2.2.2.2 "W" (by decide)⟩⟩

/-- C8: under `--validate-only` the process exit code is 0 exactly when
the validator leaves no errors and 1 otherwise (an invalid spec already
fails at the load step, which prints the errors and exits 1 before any
document generation); in particular a document with `openapi` and `info`
present but `paths` absent exits 1 and prints a message containing
"paths". -/
theorem c8_validate_only_exit :
    (∀ doc : Doc,
       (run_validate_only doc).1
         = if (validate_openapi_spec doc).errors = [] then 0 else 1) ∧
    (∀ (o : String) (i : Info) (c : Option Components),
       (run_validate_only ⟨some o, some i, none, c⟩).1 = 1 ∧
       ∃ m ∈ (run_validate_only ⟨some o, some i, none, c⟩).2, StrContains m "paths") := by
  constructor
  · intro doc
    have hok := validate_ok_eq_errors_isEmpty doc
    unfold run_validate_only
    rw [hok]
    cases herr : (validate_openapi_spec doc).errors with
    | nil => rfl
    | cons a as => rfl
  · intro o i c
    refine ⟨rfl, ⟨"  - Missing required field: paths", ?_, ?_⟩⟩
    · show "  - Missing required field: paths"
        ∈ ["❌ Failed to load OpenAPI specification", "  - Missing required field: paths"]
      decide
    · decide

theorem render_param_eq_none_iff (q : Param) :
    render_param q = none ↔ (q.name = none ∨ q.paramIn = none) := by
  obtain ⟨n, loc, st, r, d⟩ := q
  cases n <;> cases loc <;> simp [render_param]

theorem params_table_eq_none_iff (ps : List Param) :
    params_table ps = none ↔ ∃ q ∈ ps, (q.name = none ∨ q.paramIn = none) := by
  simp [params_table, Option.map_eq_none', optConcat_eq_none_iff, List.mem_map,
    render_param_eq_none_iff]

theorem render_operation_eq_none_iff (path m : String) (op : Operation) :
    render_operation path m op = none ↔
      (pyUpper m ∈ http_methods ∧
       ∃ ps, op.parameters = some ps ∧ ∃ q ∈ ps, (q.name = none ∨ q.paramIn = none)) := by
  by_cases hm : pyUpper m ∈ http_methods
  · unfold render_operation
    rw [if_pos hm]
    cases hp : op.parameters with
    | none => simp [hp, hm]
    | some ps =>
      cases ht : params_table ps with
      | none =>
        have hbad := (params_table_eq_none_iff ps).mp ht
        simp [hp, hm, ht, hbad]
      | some P =>
        have hnot := (params_table_eq_none_iff ps).not.mp (by simp [ht])
        simp [hp, hm, ht]
        simpa using hnot
  · unfold render_operation
    rw [if_neg hm]
    simp [hm]

theorem render_path_item_eq_none_iff (path : String) (ms : List (String × Operation)) :
    render_path_item path ms = none ↔
      ∃ mo ∈ ms, render_operation path mo.1 mo.2 = none := by
  simp [render_path_item, Option.map_eq_none', optConcat_eq_none_iff, List.mem_map]

/-- C9 (corrected): `_generate_endpoints_section` fails with a `KeyError`
exactly when some operation whose uppercased method is one of the five
rendered HTTP methods declares a `parameters` list holding an entry that
lacks the `name` or the `in` key.  Key-less parameter entries attached to
operations with any other method are never inspected, so — contrary to
the claim — such a document still renders; under the precondition that
every parameter entry of every rendered operation has both keys, the
failure branch is unreachable. -/
theorem c9_renderer_keyerror_iff (doc : Doc) :
    _generate_endpoints_section doc = none ↔
      ∃ pm ∈ doc.paths.getD [], ∃ mo ∈ pm.2,
        pyUpper mo.1 ∈ http_methods ∧
        ∃ ps, mo.2.parameters = some ps ∧
          ∃ q ∈ ps, (q.name = none ∨ q.paramIn = none) := by
  cases hp : doc.paths with
  | none => simp [_generate_endpoints_section, hp]
  | some ps =>
    simp [_generate_endpoints_section, hp, Option.map_eq_none', optConcat_eq_none_iff,
      List.mem_map, render_path_item_eq_none_iff, render_operation_eq_none_iff]

/-- C9, witness: the characterisation applied to the concrete document
`doc_get_bad_param`, whose GET operation carries a name-less parameter:
rendering fails. -/
theorem c9_witness :
    _generate_endpoints_section doc_get_bad_param = none :=
  (c9_renderer_keyerror_iff doc_get_bad_param).mpr
    ⟨("/q", [("get", op_bad_param)]), by decide, ("get", op_bad_param), by decide,
     by decide, [param_no_name], rfl, param_no_name, by decide, Or.inl rfl⟩

/-- C9, counterexample: a document whose only key-less parameter entry
sits under the skipped method `options` renders successfully (`some`),
refuting "for any document where some parameter entry lacks either key,
rendering raises a KeyError". -/
theorem c9_counterexample :
    param_no_name.name = none ∧
    pyUpper "options" ∉ http_methods ∧
    _generate_endpoints_section doc_options_bad_param
      = some "## Traffic Endpoints\n\n### /p\n\n" :=
  ⟨rfl, by decide, by decide⟩

theorem intersection_msg_inj {p q : String}
    (h : "Path " ++ p ++ " should have intersection_id path parameter"
       = "Path " ++ q ++ " should have intersection_id path parameter") : p = q := by
  have hd := congrArg String.data h
  rw [String.data_append, String.data_append, String.data_append, String.data_append] at hd
  exact String.ext (List.append_cancel_left (List.append_cancel_right hd))

theorem any_intersection_eq_true_iff (ps : List Param) :
    ps.any (fun q => q.name == some "intersection_id" && q.paramIn == some "path") = true ↔
      ∃ q ∈ ps, (q.name = some "intersection_id" ∧ q.paramIn = some "path") := by
  simp [List.any_eq_true, Bool.and_eq_true, beq_iff_eq]

theorem op_param_warning_eq_some_iff (path : String) (op : Operation) (w : String) :
    op_param_warning path op = some w ↔
      ((∃ ps, op.parameters = some ps ∧
         ¬ ∃ q ∈ ps, (q.name = some "intersection_id" ∧ q.paramIn = some "path")) ∧
       w = "Path " ++ path ++ " should have intersection_id path parameter") := by
  cases hp : op.parameters with
  | none => simp [op_param_warning, hp]
  | some ps =>
    by_cases ha : ps.any
        (fun q => q.name == some "intersection_id" && q.paramIn == some "path") = true
    · have hex := (any_intersection_eq_true_iff ps).mp ha
      simp [op_param_warning, hp, ha, hex]
    · have hnotex : ¬ ∃ q ∈ ps, (q.name = some "intersection_id" ∧ q.paramIn = some "path") :=
        fun hex => ha ((any_intersection_eq_true_iff ps).mpr hex)
      have ha' : ps.any
          (fun q => q.name == some "intersection_id" && q.paramIn == some "path") = false :=
        by rw [← Bool.not_eq_true]; exact ha
      simp [op_param_warning, hp, ha', eq_comm]
      exact fun _ => by simpa using hnotex

/-- C10: the warning "Path p should have intersection_id path parameter"
appears in the output of the path-parameter check exactly when `p` is a
path of the document whose string contains `\x7bintersection_id\x7d` and
some operation of `p` declares a `parameters` list with no entry having
name `intersection_id` and `in == "path"`.  In particular an operation
with no `parameters` key yields no warning, and paths with other
placeholders (or none) are never checked. -/
theorem c10_path_param_warning_iff
    (paths : List (String × List (String × Operation))) (p : String) :
    ("Path " ++ p ++ " should have intersection_id path parameter")
        ∈ path_param_warnings paths ↔
      ∃ ms, (p, ms) ∈ paths ∧ strContainsB p "\x7bintersection_id\x7d" = true ∧
        ∃ mo ∈ ms, ∃ ps, mo.2.parameters = some ps ∧
          ¬ ∃ q ∈ ps, (q.name = some "intersection_id" ∧ q.paramIn = some "path") := by
  induction paths with
  | nil => simp [path_param_warnings]
  | cons head rest ih =>
    obtain ⟨qp, ms⟩ := head
    simp only [path_param_warnings, List.mem_append]
    constructor
    · rintro (hmem | hmem)
      · by_cases hq : strContainsB qp "\x7bintersection_id\x7d" = true
        · rw [if_pos hq] at hmem
          obtain ⟨mo, hmo, hw⟩ := List.mem_filterMap.mp hmem
          obtain ⟨⟨ps, hps, hnone⟩, hmsg⟩ := (op_param_warning_eq_some_iff qp mo.2 _).mp hw
          have hpq : p = qp := intersection_msg_inj hmsg
          subst hpq
          exact ⟨ms, List.mem_cons_self _ _, hq, mo, hmo, ps, hps, hnone⟩
        · rw [if_neg hq] at hmem
          exact absurd hmem (List.not_mem_nil _)
      · obtain ⟨ms', h1, h2, h3⟩ := ih.mp hmem
        exact ⟨ms', List.mem_cons_of_mem _ h1, h2, h3⟩
    · rintro ⟨ms', hmem, hcont, mo, hmo, ps, hps, hnone⟩
      rcases List.mem_cons.mp hmem with heq | hrest
      · injection heq with h1 h2
        subst h1
        subst h2
        left
        rw [if_pos hcont]
        exact List.mem_filterMap.mpr
          ⟨mo, hmo, (op_param_warning_eq_some_iff p mo.2 _).mpr ⟨⟨ps, hps, hnone⟩, rfl⟩⟩
      · exact Or.inr (ih.mpr ⟨ms', hrest, hcont, mo, hmo, ps, hps, hnone⟩)

/-- C10, witness: the characterisation applied to a concrete
`/traffic-lights/\x7bintersection_id\x7d` path whose GET operation
declares a parameters list without the `intersection_id` path entry. -/
theorem c10_witness :
    ("Path " ++ "/traffic-lights/\x7bintersection_id\x7d"
        ++ " should have intersection_id path parameter")
      ∈ path_param_warnings
          [("/traffic-lights/\x7bintersection_id\x7d", [("get", op_bad_param)])] :=
  (c10_path_param_warning_iff
      [("/traffic-lights/\x7bintersection_id\x7d", [("get", op_bad_param)])]
      "/traffic-lights/\x7bintersection_id\x7d").mpr
    ⟨[("get", op_bad_param)], by decide, by decide,
     ("get", op_bad_param), by decide, [param_no_name], rfl, by decide⟩
